import Mathlib

/-!
Verification of `pytorch_lightning/core/__init__.py`.

The file under study is a module docstring (lines 1-313), two `from … import …`
statements (lines 315-316), the assignment `__all__ = ['LightningModule',
'data_loader']` (line 318) and one commented-out line (line 319).  We embed the
module body as a list of Python module-level statements together with an
execution semantics recording the namespace bindings, the export list and any
observable side effects, and prove the claimed properties of the export
surface.
-/

/-- Python identifier `LightningModule`, as it appears in the source. -/
def lmName : String := "LightningModule"

/-- Python identifier `data_loader`, as it appears in the source. -/
def dlName : String := "data_loader"

/-- The special module attribute `__all__`. -/
def allName : String := "__all__"

/-- The name `__call__`, the target of the commented-out line 319. -/
def callName : String := "__call__"

/-- Relative module path `.lightning` of line 316. -/
def lightningMod : String := ".lightning"

/-- Relative module path `.decorators` of line 315. -/
def decoratorsMod : String := ".decorators"

/-- Observable side effects a module-level statement could perform when the
module is imported: opening a file, opening a network connection, reading an
environment variable, or installing a command-line entry point. -/
inductive Effect where
  | fileOpen (path : String)
  | netConnect (addr : String)
  | envRead (var : String)
  | cliEntry
  deriving DecidableEq, Repr

/-- Abstract syntax of the Python module-level statements needed to describe
the file.  `exprDoc` is the leading string-literal statement that becomes the
module docstring (its 313 lines of narrative prose carry no semantics, so the
text itself is abstracted); `importFrom m ns` is `from m import ns`;
`assign t v` assigns a list-of-string-literals expression to the name `t`;
`defStmt` and `classStmt` are `def` and `class` definitions; `sideEffectStmt`
is an expression statement performing an observable effect; `mainGuard` is an
`if __name__ == "__main__"` command-line entry point.  A comment line is not a
statement and therefore has no constructor. -/
inductive Stmt where
  | exprDoc
  | importFrom (mod : String) (names : List String)
  | assign (target : String) (value : List String)
  | defStmt (name : String)
  | classStmt (name : String)
  | sideEffectStmt (e : Effect)
  | mainGuard
  deriving DecidableEq, Repr

/-- The body of `pytorch_lightning/core/__init__.py`, statement by statement:
the module docstring (lines 1-313), `from .decorators import data_loader`
(line 315), `from .lightning import LightningModule` (line 316), and
`__all__ = ['LightningModule', 'data_loader']` (line 318).  Line 319,
`# __call__ = __all__`, is a comment, hence not a statement of the body. -/
def coreInitBody : List Stmt :=
  [ Stmt.exprDoc,
    Stmt.importFrom decoratorsMod [dlName],
    Stmt.importFrom lightningMod [lmName],
    Stmt.assign allName [lmName, dlName] ]

/-- The value assigned to `__all__` on line 318. -/
def coreAll : List String := [lmName, dlName]

/-- State of a Python module while its body executes: whether a docstring has
been recorded, the names bound in the module namespace in binding order, the
current value of `__all__` (kept apart from ordinary bindings, as it is the
export-list metadata), and the observable side effects performed so far. -/
structure ModuleState where
  doc : Bool
  bindings : List String
  exportList : Option (List String)
  effects : List Effect
  deriving DecidableEq, Repr

/-- The state before the first statement of a module body runs. -/
def initState : ModuleState :=
  { doc := false, bindings := [], exportList := none, effects := [] }

/-- Effect of one module-level statement on the module state, following the
Python semantics of executing a module body: the leading string literal
becomes the docstring; a
`from m import n` statement binds each imported name; assigning `__all__` sets
the export list, any other assignment (and any `def` or `class`) binds its
target name; an effectful expression statement or a main guard records its
observable effect. -/
def execStmt (st : ModuleState) : Stmt → ModuleState
  | Stmt.exprDoc => { st with doc := true }
  | Stmt.importFrom _ ns => { st with bindings := st.bindings ++ ns }
  | Stmt.assign t v =>
      if t == allName then { st with exportList := some v }
      else { st with bindings := st.bindings ++ [t] }
  | Stmt.defStmt n => { st with bindings := st.bindings ++ [n] }
  | Stmt.classStmt n => { st with bindings := st.bindings ++ [n] }
  | Stmt.sideEffectStmt e => { st with effects := st.effects ++ [e] }
  | Stmt.mainGuard => { st with effects := st.effects ++ [Effect.cliEntry] }

/-- Run a module body from the initial state, statement by statement. -/
def runModule (body : List Stmt) : ModuleState :=
  body.foldl execStmt initState

/-- The names a single statement binds via import, if it is an import. -/
def importNames : Stmt → List String
  | Stmt.importFrom _ ns => ns
  | _ => []

/-- All names bound by the import statements of a module body. -/
def importedNames (body : List Stmt) : List String :=
  (body.map importNames).flatten

/-- Whether a statement is an import statement. -/
def isImport : Stmt → Bool
  | Stmt.importFrom _ _ => true
  | _ => false

/-- Whether a statement is the docstring or the `__all__` assignment. -/
def isDocOrAll : Stmt → Bool
  | Stmt.exprDoc => true
  | Stmt.assign t _ => t == allName
  | _ => false

/-- Whether a statement assigns to the name `t`. -/
def assignsTo (t : String) : Stmt → Bool
  | Stmt.assign u _ => u == t
  | _ => false

/-- Function names a statement defines with `def`. -/
def funNamesOf : Stmt → List String
  | Stmt.defStmt n => [n]
  | _ => []

/-- Class names a statement defines with `class`. -/
def classNamesOf : Stmt → List String
  | Stmt.classStmt n => [n]
  | _ => []

/-- All names a module body defines itself, by `def` or `class` statements,
as opposed to names it merely imports. -/
def definedNames (body : List Stmt) : List String :=
  (body.map funNamesOf).flatten ++ (body.map classNamesOf).flatten

/-- The module a given name is imported from in a body, if any: the
first import statement listing the name determines the source module. -/
def importSourceOf (body : List Stmt) (n : String) : Option String :=
  body.findSome? fun s =>
    match s with
    | Stmt.importFrom m ns => if ns.contains n then some m else none
    | _ => none

/-- The names a wildcard import `from M import *` yields, per Python
semantics: exactly the entries of `__all__` when it is set, otherwise every
bound name not starting with an underscore. -/
def wildcardExports (st : ModuleState) : List String :=
  match st.exportList with
  | some l => l
  | none => st.bindings.filter fun n => n.take 1 != "_"

/-- Modelled from the spec: the sibling submodule
`pytorch_lightning/core/lightning.py` is not among the sources shown; per the
spec it defines `LightningModule`, the base class users subclass to structure
model code.  Only the fact that it defines that name as a class is modelled. -/
def lightningBody : List Stmt := [Stmt.classStmt lmName]

/-- Modelled from the spec: the sibling submodule
`pytorch_lightning/core/decorators.py` is not among the sources shown; per the
spec it defines `data_loader`, a decorator utility, i.e. a function.  Only the
fact that it defines that name as a function is modelled. -/
def decoratorsBody : List Stmt := [Stmt.defStmt dlName]

/-- C1: executing the module body sets `__all__` to exactly the two-element
list, and a name is in that export list iff it is `LightningModule` or
`data_loader`, and nothing else. -/
theorem c1_all_exactly_two_names :
    (runModule coreInitBody).exportList = some coreAll ∧
    ∀ n : String, n ∈ coreAll ↔ (n = lmName ∨ n = dlName) := by
  refine ⟨rfl, fun n => ?_⟩
  simp [coreAll]

/-- C2: every name listed in `__all__` is bound in the module namespace by one
of the module body's import statements, so importing either name from this
module succeeds. -/
theorem c2_every_export_is_imported :
    coreAll ⊆ importedNames coreInitBody := by
  intro n hn
  simp only [coreAll, List.mem_cons, List.mem_singleton, List.not_mem_nil,
    or_false] at hn
  rcases hn with h | h <;> subst h <;> decide

/-- C2 witness: the first export, `LightningModule`, is indeed among
the imported names. -/
theorem c2_every_export_is_imported_witness :
    lmName ∈ importedNames coreInitBody :=
  c2_every_export_is_imported (by decide)

/-- C3: apart from the docstring and the `__all__` assignment, the module body
consists of exactly the two import statements, and it defines no function and
no class of its own. -/
theorem c3_body_is_two_imports :
    coreInitBody.filter (fun s => !isDocOrAll s) =
      [Stmt.importFrom decoratorsMod [dlName],
       Stmt.importFrom lightningMod [lmName]] ∧
    definedNames coreInitBody = [] := by
  exact ⟨rfl, rfl⟩

/-- C4: running the module body performs no observable side effect — no file
open, no network connection, no environment read, no command-line entry
point — and leaves only the docstring recorded, the two re-exported names
bound, and the export list set. -/
theorem c4_import_is_effect_free :
    (runModule coreInitBody).effects = [] ∧
    (runModule coreInitBody).bindings = [dlName, lmName] ∧
    (runModule coreInitBody).doc = true := by
  exact ⟨rfl, rfl, rfl⟩

/-- C5: the two exported symbols are re-exports — `LightningModule` is
brought in from the sibling `.lightning` and `data_loader` from the sibling
`.decorators`; neither is defined in this file; and in the spec-modelled
siblings the former is a class and the latter a function (the decorator). -/
theorem c5_symbols_are_reexports :
    importSourceOf coreInitBody lmName = some lightningMod ∧
    importSourceOf coreInitBody dlName = some decoratorsMod ∧
    definedNames coreInitBody = [] ∧
    (lightningBody.map classNamesOf).flatten = [lmName] ∧
    (decoratorsBody.map funNamesOf).flatten = [dlName] := by
  exact ⟨rfl, rfl, rfl, rfl, rfl⟩

/-- C6: a wildcard import from the module yields exactly `LightningModule`
and `data_loader`; the body contains no assignment to `__call__` (line 319 is
a comment, not a statement), and `__call__` is not bound in the resulting
module namespace. -/
theorem c6_wildcard_import_exact :
    wildcardExports (runModule coreInitBody) = [lmName, dlName] ∧
    coreInitBody.all (fun s => !assignsTo callName s) = true ∧
    callName ∉ (runModule coreInitBody).bindings := by
  refine ⟨rfl, rfl, by decide⟩

/-- C7: the export list is well formed — it contains no duplicate entries,
and every entry names an attribute present in the module namespace after the
module's imports execute. -/
theorem c7_export_list_well_formed :
    coreAll.Nodup ∧ coreAll ⊆ (runModule coreInitBody).bindings := by
  refine ⟨by decide, ?_⟩
  intro n hn
  simp only [coreAll, List.mem_cons, List.mem_singleton, List.not_mem_nil,
    or_false] at hn
  rcases hn with h | h <;> subst h <;> decide
